import Mathlib

/-!
Shallow embedding of `src/api/storage.js`, a Vercel serverless function
exposing a minimal key-value persistence endpoint over Postgres.

The JavaScript handler is modelled as a pure Lean function, parametrised by:
* an environment (`Env`): the five recognised Postgres environment variables;
* a request context (`Ctx`): the current time (`Date.now()`), the Node
  version string, and the external `JSON.parse` function (modelled as a
  total function returning `none` where `JSON.parse` would throw);
* a database interface (`Db σ`): each SQL statement of the source is one
  operation on an abstract state `σ`, returning either a result or a thrown
  error.  Instantiating `σ` with a concrete row store (`goodDb`) gives the
  database "behaving as specified"; other instantiations model failures and
  adversarial read-backs.

JavaScript dynamic values appearing in the handler (request bodies, stored
rows) are modelled by the `Json` type, with JS truthiness (`jsTruthy`),
JS `typeof x === 'object'` (`jsTypeofObject`) and property access on
arbitrary values (`jsField`) translated from JS semantics.
-/

/-- JSON values, modelling the dynamic JavaScript values the handler
manipulates.  Objects are finite lists of bindings; field lookup takes the
first binding, and objects built by the handler or supplied as inputs are
intended to have distinct keys, matching JavaScript objects. -/
inductive Json where
  | null : Json
  | bool : Bool → Json
  | num : Int → Json
  | str : String → Json
  | arr : List Json → Json
  | obj : List (String × Json) → Json

/-- JavaScript truthiness of a value: `null`, `false`, `0` and `""` are
falsy; every array and object (including `{}` and `[]`) is truthy. -/
def jsTruthy : Json → Bool
  | .null => false
  | .bool b => b
  | .num n => n != 0
  | .str s => !s.isEmpty
  | .arr _ => true
  | .obj _ => true

/-- JavaScript `typeof x === 'object'`: true for `null`, arrays and
objects, false for booleans, numbers and strings. -/
def jsTypeofObject : Json → Bool
  | .null => true
  | .arr _ => true
  | .obj _ => true
  | _ => false

/-- JavaScript property access `x.f` on a parsed value: a lookup on
objects, `undefined` (modelled as `none`) on every other value reaching the
handler's accesses (which are all guarded by truthiness, so `null` is never
dereferenced). -/
def jsField : Json → String → Option Json
  | .obj fs, k => fs.lookup k
  | _, _ => none

/-- The five recognised Postgres environment variables, each either unset
(`none`) or set to a string (possibly empty). -/
structure Env where
  POSTGRES_URL : Option String
  POSTGRES_PRISMA_URL : Option String
  POSTGRES_URL_NON_POOLING : Option String
  POSTGRES_HOST : Option String
  DATABASE_URL : Option String
deriving DecidableEq, Repr

/-- JS truthiness of `process.env.X`: the variable is set and non-empty. -/
def envTruthy : Option String → Bool
  | none => false
  | some s => !s.isEmpty

/-- Module initialisation (storage.js lines 14-16): if `POSTGRES_URL` is
falsy and `DATABASE_URL` is truthy, copy `DATABASE_URL` into
`POSTGRES_URL`. -/
def initEnv (e : Env) : Env :=
  if !envTruthy e.POSTGRES_URL && envTruthy e.DATABASE_URL then
    { e with POSTGRES_URL := e.DATABASE_URL }
  else e

/-- `hasPostgresEnv()` (storage.js lines 23-31): true iff at least one of
the five recognised variables is truthy (set and non-empty). -/
def hasPostgresEnv (e : Env) : Bool :=
  envTruthy e.POSTGRES_URL ||
  envTruthy e.POSTGRES_PRISMA_URL ||
  envTruthy e.POSTGRES_URL_NON_POOLING ||
  envTruthy e.POSTGRES_HOST ||
  envTruthy e.DATABASE_URL

/-- The fixed logical key for the application's saved state. -/
def STORAGE_KEY : String := "sdmfpippdc:storage:v1"

/-- The fixed logical key for the connectivity probe. -/
def PING_KEY : String := "sdmfpippdc:ping:v1"

/-- A thrown JavaScript error as observed by the catch block: optional
`message`, `code` and `name` properties (each possibly empty). -/
structure JsErr where
  message : Option String
  code : Option String
  name : Option String
deriving DecidableEq, Repr

/-- The request body as delivered by the platform: a raw string still to be
parsed, an already-parsed value, or absent (`undefined`). -/
inductive ReqBody where
  | raw : String → ReqBody
  | val : Json → ReqBody
  | undef : ReqBody

/-- An incoming request.  `diagLookup` is the observed outcome of
`new URL(req.url, 'http://localhost').searchParams.get('diag')`: either the
parameter value (or `none` when the parameter is absent), or `error` when
the URL constructor throws (e.g. `req.url` is not a string). -/
structure Request where
  method : String
  url : Option String
  diagLookup : Except Unit (Option String)
  body : ReqBody

/-- Request context: `Date.now()`, `process.version`, and `JSON.parse`
(total, `none` where `JSON.parse` would throw on malformed input). -/
structure Ctx where
  now : Nat
  nodeVersion : String
  jsonParse : String → Option Json

/-- An HTTP response: status code, the headers the handler sets
explicitly, and the JSON body passed to `res.json`. -/
structure Response where
  status : Nat
  headers : List (String × String)
  body : Json

/-- The database interface: one operation per SQL statement of the source,
over an abstract connection/storage state `σ`.  Each operation returns the
statement's outcome (a thrown error or its rows) together with the
successor state. -/
structure Db (σ : Type) where
  ensure : σ → Except JsErr Unit × σ
  select : String → σ → Except JsErr (Option Json) × σ
  upsert : String → Json → σ → Except JsErr Unit × σ

/-- `parseBody(req)` (storage.js lines 44-52): a string body is parsed
(`'{}'` when empty), with parse failures degrading to `{}`; a non-string
body is taken as-is when truthy, else `{}`. -/
def parseBody (jsonParse : String → Option Json) : ReqBody → Json
  | .raw s =>
    match jsonParse (if s.isEmpty then "\x7b\x7d" else s) with
    | some j => j
    | none => Json.obj []
  | .val j => if jsTruthy j then j else Json.obj []
  | .undef => Json.obj []

/-- The handler's diagnostic test (storage.js lines 57-65): the `diag`
query parameter equals `"1"` or `"true"`; when URL parsing throws, fall
back to a substring search for `diag=1` in the raw URL. -/
def isDiag (req : Request) : Bool :=
  match req.diagLookup with
  | .ok v => v == some "1" || v == some "true"
  | .error _ =>
    match req.url with
    | some u => (u.splitOn "diag=1").length != 1
    | none => false

/-- The diagnostic response (storage.js lines 67-81): HTTP 200 with
presence flags for each recognised variable and the Node version. -/
def diagResp (env : Env) (ctx : Ctx) : Response :=
  { status := 200
    headers := [("Cache-Control", "no-store")]
    body := Json.obj [
      ("ok", Json.bool true),
      ("diag", Json.obj [
        ("hasPostgresEnv", Json.bool (hasPostgresEnv env)),
        ("has_POSTGRES_URL", Json.bool (envTruthy env.POSTGRES_URL)),
        ("has_POSTGRES_PRISMA_URL", Json.bool (envTruthy env.POSTGRES_PRISMA_URL)),
        ("has_POSTGRES_URL_NON_POOLING", Json.bool (envTruthy env.POSTGRES_URL_NON_POOLING)),
        ("has_POSTGRES_HOST", Json.bool (envTruthy env.POSTGRES_HOST)),
        ("has_DATABASE_URL", Json.bool (envTruthy env.DATABASE_URL)),
        ("node", Json.str ctx.nodeVersion)])] }

/-- The 503 response when no Postgres configuration is present
(storage.js lines 83-90). -/
def pgNotConfiguredResp : Response :=
  { status := 503
    headers := [("Cache-Control", "no-store")]
    body := Json.obj [
      ("ok", Json.bool false),
      ("error", Json.str "pg_not_configured"),
      ("message", Json.str "Vercel Postgres (Neon) non configuré (variables d\x27environnement manquantes).")] }

/-- The 200 response to a successful GET, carrying the stored value. -/
def okKvResp (kv : Json) : Response :=
  { status := 200
    headers := [("Cache-Control", "no-store")]
    body := Json.obj [("ok", Json.bool true), ("kv", kv)] }

/-- The ping response (storage.js line 115): 200 `{ok:true}` on a matching
read-back, 500 `{ok:false}` otherwise. -/
def pingResp (ok : Bool) : Response :=
  { status := if ok then 200 else 500
    headers := [("Cache-Control", "no-store")]
    body := Json.obj [("ok", Json.bool ok)] }

/-- The 200 `{ok:true}` response to a successful data POST. -/
def postOkResp : Response :=
  { status := 200
    headers := [("Cache-Control", "no-store")]
    body := Json.obj [("ok", Json.bool true)] }

/-- The 405 response for unsupported methods (storage.js lines 131-132),
with the `Allow` header and no cache directive. -/
def methodNotAllowedResp : Response :=
  { status := 405
    headers := [("Allow", "GET, POST")]
    body := Json.obj [("ok", Json.bool false), ("error", Json.str "method_not_allowed")] }

/-- The catch-block response (storage.js lines 133-143): HTTP 500 with the
error's message (or `server_error`), and `details` carrying `code` and
`name` when truthy (JSON serialisation drops `undefined` fields). -/
def errResp (e : JsErr) : Response :=
  { status := 500
    headers := [("Cache-Control", "no-store")]
    body := Json.obj [
      ("ok", Json.bool false),
      ("error", Json.str (match e.message with
        | some m => if m.isEmpty then "server_error" else m
        | none => "server_error")),
      ("details", Json.obj (
        (match e.code with
          | some c => if c.isEmpty then [] else [("code", Json.str c)]
          | none => []) ++
        (match e.name with
          | some n => if n.isEmpty then [] else [("name", Json.str n)]
          | none => [])))] }

/-- `body && body.ping` (storage.js line 104). -/
def bodyPingTruthy (body : Json) : Bool :=
  jsTruthy body &&
    (match jsField body "ping" with
     | some p => jsTruthy p
     | none => false)

/-- `(body && body.kv && typeof body.kv === 'object') ? body.kv : {}`
(storage.js line 118). -/
def computeKv (body : Json) : Json :=
  if jsTruthy body then
    match jsField body "kv" with
    | some v => if jsTruthy v && jsTypeofObject v then v else Json.obj []
    | none => Json.obj []
  else Json.obj []

/-- `rows && rows[0] && rows[0].value && rows[0].value.stamp === stamp`
(storage.js line 113): the read-back row exists, its value is truthy, and
its `stamp` property is strictly equal to the written stamp string. -/
def stampMatches (row : Option Json) (stamp : String) : Bool :=
  match row with
  | some v =>
    jsTruthy v &&
      (match jsField v "stamp" with
       | some (Json.str s) => s == stamp
       | _ => false)
  | none => false

/-- `(rows && rows[0] && rows[0].value) ? rows[0].value : {}`
(storage.js line 96). -/
def getKvOfRow (row : Option Json) : Json :=
  match row with
  | some v => if jsTruthy v then v else Json.obj []
  | none => Json.obj []

/-- The handler (storage.js lines 54-144), translated statement by
statement.  Each `await sql` of the source is one `Db` operation; a thrown
database error propagates to the top-level catch, i.e. produces
`errResp`. -/
def handler {σ : Type} (db : Db σ) (env : Env) (ctx : Ctx) (req : Request) (s : σ) :
    Response × σ :=
  if isDiag req then (diagResp env ctx, s)
  else if !hasPostgresEnv env then (pgNotConfiguredResp, s)
  else
    match db.ensure s with
    | (.error e, s1) => (errResp e, s1)
    | (.ok _, s1) =>
      if req.method == "GET" then
        match db.select STORAGE_KEY s1 with
        | (.error e, s2) => (errResp e, s2)
        | (.ok row, s2) => (okKvResp (getKvOfRow row), s2)
      else if req.method == "POST" then
        let body := parseBody ctx.jsonParse req.body
        if bodyPingTruthy body then
          let stamp := toString ctx.now
          match db.upsert PING_KEY (Json.obj [("stamp", Json.str stamp)]) s1 with
          | (.error e, s2) => (errResp e, s2)
          | (.ok _, s2) =>
            match db.select PING_KEY s2 with
            | (.error e, s3) => (errResp e, s3)
            | (.ok row, s3) => (pingResp (stampMatches row stamp), s3)
        else
          match db.upsert STORAGE_KEY (computeKv body) s1 with
          | (.error e, s2) => (errResp e, s2)
          | (.ok _, s2) => (postOkResp, s2)
      else (methodNotAllowedResp, s1)

/-- A row store: the `app_storage` table as an association list from key to
JSONB value (`updated_at` is not observed by any handler read). -/
def Store := List (String × Json)

/-- Upsert into the row store: replace the row with the given key, or
insert it.  At most one row per key is kept. -/
def storePut (k : String) (v : Json) (s : Store) : Store :=
  (k, v) :: s.filter (fun p => p.1 != k)

/-- Row lookup in the store. -/
def storeGet (k : String) (s : Store) : Option Json :=
  List.lookup k s

/-- The database behaving as specified: every statement succeeds,
`SELECT` reads the row for its key, the upsert statement replaces or
inserts the row for its key. -/
def goodDb : Db Store where
  ensure s := (.ok (), s)
  select k s := (.ok (storeGet k s), s)
  upsert k v s := (.ok (), storePut k v s)

/-- An instrumented database recording the sequence of statements executed:
every statement succeeds and `SELECT` returns no row. -/
def traceDb : Db (List String) where
  ensure s := (.ok (), s ++ ["ensure"])
  select k s := (.ok none, s ++ ["select " ++ k])
  upsert k _ s := (.ok (), s ++ ["upsert " ++ k])

/-- A database whose schema-creation statement throws. -/
def failEnsureDb (e : JsErr) : Db Unit where
  ensure s := (.error e, s)
  select _ s := (.ok none, s)
  upsert _ _ s := (.ok (), s)

/-- A configured environment fixture: only the primary URL is set. -/
def envConfigured : Env :=
  { POSTGRES_URL := some "postgres://user@host/db"
    POSTGRES_PRISMA_URL := none
    POSTGRES_URL_NON_POOLING := none
    POSTGRES_HOST := none
    DATABASE_URL := none }

/-- An unconfigured environment fixture: nothing set. -/
def envEmpty : Env :=
  { POSTGRES_URL := none
    POSTGRES_PRISMA_URL := none
    POSTGRES_URL_NON_POOLING := none
    POSTGRES_HOST := none
    DATABASE_URL := none }

/-- A context fixture: `Date.now() = 5`, and a `JSON.parse` that rejects
every input (only exercised on malformed-body fixtures). -/
def ctxFail : Ctx :=
  { now := 5, nodeVersion := "v20.11.1", jsonParse := fun _ => none }

/-- A concrete thrown database error fixture. -/
def errBoom : JsErr :=
  { message := some "relation does not exist", code := some "42P01", name := some "error" }

/-- A concrete DELETE request fixture (non-diagnostic). -/
def reqDelete : Request :=
  { method := "DELETE", url := some "/api/storage", diagLookup := .ok none,
    body := .undef }

/-- A concrete POST request fixture whose body carries `kv` as an array. -/
def reqPostArrayKv : Request :=
  { method := "POST", url := some "/api/storage", diagLookup := .ok none,
    body := .val (Json.obj [("kv", Json.arr [Json.num 1])]) }

/-- Row lookup after upserting the same key. -/
theorem storeGet_put_same (k : String) (v : Json) (s : Store) :
    storeGet k (storePut k v s) = some v := by
  simp [storeGet, storePut, List.lookup]

/-- Filtering out another key's rows does not change a lookup. -/
theorem lookup_filter_ne (k k' : String) (h : k' ≠ k) (s : Store) :
    List.lookup k' (s.filter (fun p => p.1 != k)) = List.lookup k' s := by
  induction s with
  | nil => rfl
  | cons p t ih =>
    obtain ⟨a, b⟩ := p
    by_cases ha : a = k
    · subst ha
      have h1 : (k' == a) = false := beq_eq_false_iff_ne.mpr h
      simp [List.filter, List.lookup, h1, ih]
    · by_cases hk : k' = a
      · subst hk
        have h3 : (k' != k) = true := bne_iff_ne.mpr h
        simp [List.filter, List.lookup, h3]
      · have h2 : (k' == a) = false := beq_eq_false_iff_ne.mpr hk
        have h3 : (a != k) = true := bne_iff_ne.mpr ha
        simp [List.filter, List.lookup, h3, h2, ih]

/-- Row lookup after upserting a different key is unchanged. -/
theorem storeGet_put_ne (k k' : String) (v : Json) (s : Store) (h : k' ≠ k) :
    storeGet k' (storePut k v s) = storeGet k' s := by
  have h1 : (k' == k) = false := beq_eq_false_iff_ne.mpr h
  simp only [storeGet, storePut, List.lookup, h1]
  exact lookup_filter_ne k k' h s

/-- C3: For every non-diagnostic request (any method), if none of the five
recognised environment variables is non-empty, the handler responds HTTP
503 with `{ok:false, error:"pg_not_configured", message:<text>}` and
performs no schema creation and no database query (the theorem holds for
every database interface and returns the database state untouched). -/
theorem handler_unconfigured_503 {σ : Type} (db : Db σ) (env : Env) (ctx : Ctx)
    (req : Request) (s : σ) (hd : isDiag req = false)
    (hconf : hasPostgresEnv env = false) :
    handler db env ctx req s = (pgNotConfiguredResp, s) ∧
    pgNotConfiguredResp.status = 503 := by
  exact ⟨by simp [handler, hd, hconf], rfl⟩

/-- Witness for C3 at a concrete GET request in an empty environment. -/
theorem handler_unconfigured_503_witness :
    handler goodDb envEmpty ctxFail
        { method := "GET", url := some "/api/storage", diagLookup := .ok none,
          body := .undef } [] =
      (pgNotConfiguredResp, []) ∧
    pgNotConfiguredResp.status = 503 :=
  handler_unconfigured_503 goodDb envEmpty ctxFail
    { method := "GET", url := some "/api/storage", diagLookup := .ok none,
      body := .undef } [] (by simp [isDiag]) (by simp [hasPostgresEnv, envEmpty, envTruthy])

/-- C5: For every request whose `diag` query parameter is `"1"` or
`"true"` — or, when URL parsing throws, whose raw URL contains the
substring `diag=1` — the handler responds HTTP 200 with the diagnostic
flags, for every database interface and every configuration state, leaving
the database state untouched (no schema creation, no query). -/
theorem handler_diag_short_circuit {σ : Type} (db : Db σ) (env : Env) (ctx : Ctx)
    (req : Request) (s : σ)
    (h : (req.diagLookup = .ok (some "1") ∨ req.diagLookup = .ok (some "true")) ∨
         (∃ u, req.diagLookup = .error () ∧ req.url = some u ∧
           (u.splitOn "diag=1").length ≠ 1)) :
    handler db env ctx req s = (diagResp env ctx, s) ∧
    (diagResp env ctx).status = 200 := by
  have hd : isDiag req = true := by
    rcases h with (h1 | h1) | ⟨u, h1, h2, h3⟩
    · simp [isDiag, h1]
    · simp [isDiag, h1]
    · simp [isDiag, h1, h2, h3]
  exact ⟨by simp [handler, hd], rfl⟩

/-- Witness for C5: a concrete `?diag=1` request in an unconfigured
environment still gets HTTP 200 and leaves the store untouched. -/
theorem handler_diag_short_circuit_witness :
    handler goodDb envEmpty ctxFail
        { method := "GET", url := some "/api/storage?diag=1",
          diagLookup := .ok (some "1"), body := .undef } [] =
      (diagResp envEmpty ctxFail, []) ∧
    (diagResp envEmpty ctxFail).status = 200 :=
  handler_diag_short_circuit goodDb envEmpty ctxFail
    { method := "GET", url := some "/api/storage?diag=1",
      diagLookup := .ok (some "1"), body := .undef } []
    (Or.inl (Or.inl rfl))

/-- C6: If at module initialisation `POSTGRES_URL` is falsy while
`DATABASE_URL` is truthy, the fallback value is copied into
`POSTGRES_URL`; `hasPostgresEnv` is true exactly when at least one of the
five recognised variables is non-empty; and in particular with only
`DATABASE_URL` set, after initialisation the primary variable is populated
and `hasPostgresEnv` is true. -/
theorem env_fallback_and_detection :
    (∀ e : Env, envTruthy e.POSTGRES_URL = false → envTruthy e.DATABASE_URL = true →
      (initEnv e).POSTGRES_URL = e.DATABASE_URL) ∧
    (∀ e : Env, hasPostgresEnv e = true ↔
      (envTruthy e.POSTGRES_URL = true ∨ envTruthy e.POSTGRES_PRISMA_URL = true ∨
       envTruthy e.POSTGRES_URL_NON_POOLING = true ∨ envTruthy e.POSTGRES_HOST = true ∨
       envTruthy e.DATABASE_URL = true)) ∧
    (∀ d : String, d.isEmpty = false →
      (initEnv { envEmpty with DATABASE_URL := some d }).POSTGRES_URL = some d ∧
      hasPostgresEnv (initEnv { envEmpty with DATABASE_URL := some d }) = true) := by
  refine ⟨?_, ?_, ?_⟩
  · intro e h1 h2
    simp [initEnv, h1, h2]
  · intro e
    simp [hasPostgresEnv, Bool.or_eq_true, or_assoc]
  · intro d hd
    constructor
    · simp [initEnv, envEmpty, envTruthy, hd]
    · simp [initEnv, hasPostgresEnv, envEmpty, envTruthy, hd]

/-- Witness for C6 at a concrete environment where only the generic
fallback variable is set. -/
theorem env_fallback_and_detection_witness :
    (initEnv { envEmpty with DATABASE_URL := some "postgres://fallback" }).POSTGRES_URL =
      some "postgres://fallback" ∧
    hasPostgresEnv (initEnv { envEmpty with DATABASE_URL := some "postgres://fallback" }) =
      true :=
  env_fallback_and_detection.2.2 "postgres://fallback" (by decide)

/-- C1: In a configured environment, with the database behaving as
specified, a POST whose parsed body is `{kv:V}` for a JSON object V
returns HTTP 200 `{ok:true}`, and a subsequent GET returns HTTP 200
`{ok:true, kv:V}`: the value read back equals the value written. -/
theorem post_then_get_roundtrip (env : Env) (ctx ctx2 : Ctx)
    (fs : List (String × Json)) (postReq getReq : Request) (s : Store)
    (hconf : hasPostgresEnv env = true)
    (hd1 : isDiag postReq = false) (hd2 : isDiag getReq = false)
    (hm1 : postReq.method = "POST") (hm2 : getReq.method = "GET")
    (hb : parseBody ctx.jsonParse postReq.body = Json.obj [("kv", Json.obj fs)]) :
    ∃ s2 : Store,
      handler goodDb env ctx postReq s = (postOkResp, s2) ∧
      postOkResp.status = 200 ∧
      handler goodDb env ctx2 getReq s2 = (okKvResp (Json.obj fs), s2) ∧
      (okKvResp (Json.obj fs)).status = 200 := by
  refine ⟨storePut STORAGE_KEY (Json.obj fs) s, ?_, rfl, ?_, rfl⟩
  · simp [handler, hd1, hconf, hm1, hb, bodyPingTruthy, computeKv, jsField,
      jsTruthy, jsTypeofObject, goodDb, List.lookup]
  · simp [handler, hd2, hconf, hm2, goodDb, storeGet_put_same, getKvOfRow, jsTruthy]

/-- Witness for C1 at the concrete object `{a: 1}`. -/
theorem post_then_get_roundtrip_witness :
    ∃ s2 : Store,
      handler goodDb envConfigured ctxFail
          { method := "POST", url := some "/api/storage", diagLookup := .ok none,
            body := .val (Json.obj [("kv", Json.obj [("a", Json.num 1)])]) } [] =
        (postOkResp, s2) ∧
      postOkResp.status = 200 ∧
      handler goodDb envConfigured ctxFail
          { method := "GET", url := some "/api/storage", diagLookup := .ok none,
            body := .undef } s2 =
        (okKvResp (Json.obj [("a", Json.num 1)]), s2) ∧
      (okKvResp (Json.obj [("a", Json.num 1)])).status = 200 :=
  post_then_get_roundtrip envConfigured ctxFail ctxFail [("a", Json.num 1)]
    { method := "POST", url := some "/api/storage", diagLookup := .ok none,
      body := .val (Json.obj [("kv", Json.obj [("a", Json.num 1)])]) }
    { method := "GET", url := some "/api/storage", diagLookup := .ok none,
      body := .undef } []
    (by rfl) (by rfl) (by rfl) rfl rfl (by rfl)

/-- C2: On a POST whose parsed body has a truthy `ping` field, in a
configured environment, the handler upserts the row `{stamp: String(now)}`
under `PING_KEY`, re-reads that row, and answers HTTP 200 `{ok:true}`
exactly when the re-read row's `stamp` strictly equals the written stamp,
and HTTP 500 `{ok:false}` on any mismatch.  The database operations are
arbitrary: `row` is whatever the re-read returns. -/
theorem ping_write_readback_check {σ : Type} (db : Db σ) (env : Env) (ctx : Ctx)
    (req : Request) (s s1 s2 s3 : σ) (row : Option Json)
    (hd : isDiag req = false) (hconf : hasPostgresEnv env = true)
    (hm : req.method = "POST")
    (hping : bodyPingTruthy (parseBody ctx.jsonParse req.body) = true)
    (h1 : db.ensure s = (.ok (), s1))
    (h2 : db.upsert PING_KEY (Json.obj [("stamp", Json.str (toString ctx.now))]) s1 =
      (.ok (), s2))
    (h3 : db.select PING_KEY s2 = (.ok row, s3)) :
    handler db env ctx req s = (pingResp (stampMatches row (toString ctx.now)), s3) ∧
    ((handler db env ctx req s).1.status = 200 ↔
      stampMatches row (toString ctx.now) = true) ∧
    ((handler db env ctx req s).1.status = 500 ↔
      stampMatches row (toString ctx.now) = false) ∧
    (handler db env ctx req s).1.body =
      Json.obj [("ok", Json.bool (stampMatches row (toString ctx.now)))] := by
  have hmain : handler db env ctx req s =
      (pingResp (stampMatches row (toString ctx.now)), s3) := by
    simp [handler, hd, hconf, hm, hping, h1, h2, h3]
  refine ⟨hmain, ?_, ?_, ?_⟩ <;> rw [hmain] <;>
    cases hsm : stampMatches row (toString ctx.now) <;> simp [pingResp]

/-- Witness for C2: with the database behaving as specified, the re-read
stamp matches and the concrete ping request yields HTTP 200 `{ok:true}`. -/
theorem ping_write_readback_check_witness :
    handler goodDb envConfigured ctxFail
        { method := "POST", url := some "/api/storage", diagLookup := .ok none,
          body := .val (Json.obj [("ping", Json.bool true)]) } [] =
      (pingResp (stampMatches (some (Json.obj [("stamp", Json.str "5")])) "5"), 
       [(PING_KEY, Json.obj [("stamp", Json.str "5")])]) :=
  (ping_write_readback_check goodDb envConfigured ctxFail
    { method := "POST", url := some "/api/storage", diagLookup := .ok none,
      body := .val (Json.obj [("ping", Json.bool true)]) }
    [] [] [(PING_KEY, Json.obj [("stamp", Json.str "5")])]
    [(PING_KEY, Json.obj [("stamp", Json.str "5")])]
    (some (Json.obj [("stamp", Json.str "5")]))
    (by rfl) (by rfl) rfl (by rfl) (by rfl) (by rfl) (by rfl)).1

/-- C8: In a configured environment, on a non-diagnostic request whose
method is neither GET nor POST, once the schema statement succeeds the
handler answers HTTP 405 with an `Allow: GET, POST` header and
`{ok:false, error:"method_not_allowed"}`. -/
theorem method_not_allowed_405 {σ : Type} (db : Db σ) (env : Env) (ctx : Ctx)
    (req : Request) (s s1 : σ)
    (hd : isDiag req = false) (hconf : hasPostgresEnv env = true)
    (hens : db.ensure s = (.ok (), s1))
    (hg : req.method ≠ "GET") (hp : req.method ≠ "POST") :
    handler db env ctx req s = (methodNotAllowedResp, s1) ∧
    methodNotAllowedResp.status = 405 ∧
    methodNotAllowedResp.headers = [("Allow", "GET, POST")] ∧
    methodNotAllowedResp.body =
      Json.obj [("ok", Json.bool false), ("error", Json.str "method_not_allowed")] := by
  have hg' : (req.method == "GET") = false := beq_eq_false_iff_ne.mpr hg
  have hp' : (req.method == "POST") = false := beq_eq_false_iff_ne.mpr hp
  exact ⟨by simp [handler, hd, hconf, hens, hg', hp'], rfl, rfl, rfl⟩

/-- Witness for C8 at a concrete DELETE request. -/
theorem method_not_allowed_405_witness :
    handler goodDb envConfigured ctxFail
        { method := "DELETE", url := some "/api/storage", diagLookup := .ok none,
          body := .undef } [] =
      (methodNotAllowedResp, []) ∧
    methodNotAllowedResp.status = 405 ∧
    methodNotAllowedResp.headers = [("Allow", "GET, POST")] ∧
    methodNotAllowedResp.body =
      Json.obj [("ok", Json.bool false), ("error", Json.str "method_not_allowed")] :=
  method_not_allowed_405 goodDb envConfigured ctxFail
    { method := "DELETE", url := some "/api/storage", diagLookup := .ok none,
      body := .undef } [] []
    (by rfl) (by rfl) rfl (by decide) (by decide)

/-- C9: On a POST whose parsed body has a truthy `ping` field, only the
ping path runs: the `STORAGE_KEY` row is left unchanged, even when the
same body also carries a `kv` field. -/
theorem ping_preserves_storage_row (env : Env) (ctx : Ctx) (req : Request)
    (s : Store)
    (hd : isDiag req = false) (hconf : hasPostgresEnv env = true)
    (hm : req.method = "POST")
    (hping : bodyPingTruthy (parseBody ctx.jsonParse req.body) = true) :
    storeGet STORAGE_KEY (handler goodDb env ctx req s).2 =
      storeGet STORAGE_KEY s := by
  have hmain : handler goodDb env ctx req s =
      (pingResp (stampMatches
        (storeGet PING_KEY
          (storePut PING_KEY (Json.obj [("stamp", Json.str (toString ctx.now))]) s))
        (toString ctx.now)),
       storePut PING_KEY (Json.obj [("stamp", Json.str (toString ctx.now))]) s) := by
    simp [handler, hd, hconf, hm, hping, goodDb]
  rw [hmain]
  exact storeGet_put_ne PING_KEY STORAGE_KEY _ s (by decide)

/-- Witness for C9: a ping body that also carries `kv:{b:2}` leaves the
pre-existing `STORAGE_KEY` row untouched. -/
theorem ping_preserves_storage_row_witness :
    storeGet STORAGE_KEY
      (handler goodDb envConfigured ctxFail
        { method := "POST", url := some "/api/storage", diagLookup := .ok none,
          body := .val (Json.obj [("ping", Json.bool true),
                                  ("kv", Json.obj [("b", Json.num 2)])]) }
        [(STORAGE_KEY, Json.obj [("a", Json.num 1)])]).2 =
    storeGet STORAGE_KEY [(STORAGE_KEY, Json.obj [("a", Json.num 1)])] :=
  ping_preserves_storage_row envConfigured ctxFail
    { method := "POST", url := some "/api/storage", diagLookup := .ok none,
      body := .val (Json.obj [("ping", Json.bool true),
                              ("kv", Json.obj [("b", Json.num 2)])]) }
    [(STORAGE_KEY, Json.obj [("a", Json.num 1)])]
    (by rfl) (by rfl) rfl (by rfl)

/-- C4 counterexample: the claim says a `kv` that is an array degrades to
the empty object, but `typeof` classifies arrays as objects, so the
concrete POST body `{kv:[1]}` stores the array itself, which is not the
empty object. -/
theorem kv_array_stored_verbatim :
    (handler goodDb envConfigured ctxFail reqPostArrayKv []).2 =
      [(STORAGE_KEY, Json.arr [Json.num 1])] ∧
    Json.arr [Json.num 1] ≠ Json.obj [] :=
  ⟨rfl, fun h => Json.noConfusion h⟩

/-- C4 (amended): on a POST data-intent request the value upserted under
`STORAGE_KEY` is `body.kv` exactly when that field is present, truthy and
of JavaScript type object — which includes arrays as well as JSON objects —
and the empty object otherwise (absent `kv`, or `kv` a string, number,
boolean or null); a string body whose JSON parse fails likewise degrades to
an empty-object write and the request still succeeds with HTTP 200. -/
theorem post_kv_normalization :
    (∀ (env : Env) (ctx : Ctx) (req : Request) (s : Store),
      hasPostgresEnv env = true → isDiag req = false → req.method = "POST" →
      bodyPingTruthy (parseBody ctx.jsonParse req.body) = false →
      handler goodDb env ctx req s =
        (postOkResp,
         storePut STORAGE_KEY
           (match jsField (parseBody ctx.jsonParse req.body) "kv" with
            | some v => if jsTruthy v && jsTypeofObject v then v else Json.obj []
            | none => Json.obj []) s)) ∧
    (∀ (env : Env) (ctx : Ctx) (req : Request) (s : Store) (raw : String),
      hasPostgresEnv env = true → isDiag req = false → req.method = "POST" →
      req.body = .raw raw →
      ctx.jsonParse (if raw.isEmpty then "\x7b\x7d" else raw) = none →
      handler goodDb env ctx req s =
        (postOkResp, storePut STORAGE_KEY (Json.obj []) s)) := by
  constructor
  · intro env ctx req s hc hd hm hping
    have hkv : computeKv (parseBody ctx.jsonParse req.body) =
        (match jsField (parseBody ctx.jsonParse req.body) "kv" with
         | some v => if jsTruthy v && jsTypeofObject v then v else Json.obj []
         | none => Json.obj []) := by
      cases hb : parseBody ctx.jsonParse req.body <;>
        simp [computeKv, jsField, jsTruthy]
    simp [handler, hd, hc, hm, hping, goodDb, hkv]
  · intro env ctx req s raw hc hd hm hbody hparse
    have hb : parseBody ctx.jsonParse req.body = Json.obj [] := by
      simp [parseBody, hbody, hparse]
    have hping : bodyPingTruthy (parseBody ctx.jsonParse req.body) = false := by
      simp [hb, bodyPingTruthy, jsField, List.lookup]
    simp [handler, hd, hc, hm, hping, goodDb, hb, bodyPingTruthy, computeKv,
      jsField, jsTruthy, List.lookup]

/-- Witness for C4 (amended): a string-valued `kv` degrades to an empty
object, and a malformed raw string body also degrades to an empty object,
both with HTTP 200. -/
theorem post_kv_normalization_witness :
    handler goodDb envConfigured ctxFail
        { method := "POST", url := some "/api/storage", diagLookup := .ok none,
          body := .val (Json.obj [("kv", Json.str "x")]) } [] =
      (postOkResp, storePut STORAGE_KEY (Json.obj []) []) ∧
    handler goodDb envConfigured ctxFail
        { method := "POST", url := some "/api/storage", diagLookup := .ok none,
          body := .raw "not json" } [] =
      (postOkResp, storePut STORAGE_KEY (Json.obj []) []) :=
  ⟨post_kv_normalization.1 envConfigured ctxFail
      { method := "POST", url := some "/api/storage", diagLookup := .ok none,
        body := .val (Json.obj [("kv", Json.str "x")]) } []
      (by rfl) (by rfl) rfl (by rfl),
   post_kv_normalization.2 envConfigured ctxFail
      { method := "POST", url := some "/api/storage", diagLookup := .ok none,
        body := .raw "not json" } [] "not json"
      (by rfl) (by rfl) rfl rfl (by rfl)⟩

/-- C7: the handler is total and every outcome is one of the structured
responses of the source; in particular every database failure surfaces as
the catch-block's HTTP 500 `{ok:false, error:..., details:...}` response
(`errResp`), so no unhandled fault reaches the caller. -/
theorem handler_always_responds {σ : Type} (db : Db σ) (env : Env) (ctx : Ctx)
    (req : Request) (s : σ) :
    (handler db env ctx req s).1 = diagResp env ctx ∨
    (handler db env ctx req s).1 = pgNotConfiguredResp ∨
    (∃ e : JsErr, (handler db env ctx req s).1 = errResp e ∧
      (errResp e).status = 500) ∨
    (∃ kv : Json, (handler db env ctx req s).1 = okKvResp kv) ∨
    (∃ b : Bool, (handler db env ctx req s).1 = pingResp b) ∨
    (handler db env ctx req s).1 = postOkResp ∨
    (handler db env ctx req s).1 = methodNotAllowedResp := by
  by_cases hd : isDiag req = true
  · left; simp [handler, hd]
  · have hd' : isDiag req = false := Bool.eq_false_iff.mpr hd
    by_cases hc : hasPostgresEnv env = true
    · rcases hens : db.ensure s with ⟨r1, s1⟩
      cases r1 with
      | error e =>
        exact Or.inr (Or.inr (Or.inl ⟨e, by simp [handler, hd', hc, hens], rfl⟩))
      | ok u =>
        by_cases hg : (req.method == "GET") = true
        · rcases hsel : db.select STORAGE_KEY s1 with ⟨r2, s2⟩
          cases r2 with
          | error e =>
            exact Or.inr (Or.inr (Or.inl
              ⟨e, by simp [handler, hd', hc, hens, hg, hsel], rfl⟩))
          | ok row =>
            exact Or.inr (Or.inr (Or.inr (Or.inl
              ⟨getKvOfRow row, by simp [handler, hd', hc, hens, hg, hsel]⟩)))
        · by_cases hp : (req.method == "POST") = true
          · by_cases hping :
                bodyPingTruthy (parseBody ctx.jsonParse req.body) = true
            · rcases hup : db.upsert PING_KEY
                  (Json.obj [("stamp", Json.str (toString ctx.now))]) s1 with ⟨r2, s2⟩
              cases r2 with
              | error e =>
                exact Or.inr (Or.inr (Or.inl
                  ⟨e, by simp [handler, hd', hc, hens, hg, hp, hping, hup], rfl⟩))
              | ok u2 =>
                rcases hsel : db.select PING_KEY s2 with ⟨r3, s3⟩
                cases r3 with
                | error e =>
                  exact Or.inr (Or.inr (Or.inl
                    ⟨e, by simp [handler, hd', hc, hens, hg, hp, hping, hup, hsel],
                     rfl⟩))
                | ok row =>
                  exact Or.inr (Or.inr (Or.inr (Or.inr (Or.inl
                    ⟨stampMatches row (toString ctx.now),
                     by simp [handler, hd', hc, hens, hg, hp, hping, hup, hsel]⟩))))
            · rcases hup : db.upsert STORAGE_KEY
                  (computeKv (parseBody ctx.jsonParse req.body)) s1 with ⟨r2, s2⟩
              cases r2 with
              | error e =>
                exact Or.inr (Or.inr (Or.inl
                  ⟨e, by simp [handler, hd', hc, hens, hg, hp, hping, hup], rfl⟩))
              | ok u2 =>
                exact Or.inr (Or.inr (Or.inr (Or.inr (Or.inr (Or.inl
                  (by simp [handler, hd', hc, hens, hg, hp, hping, hup]))))))
          · exact Or.inr (Or.inr (Or.inr (Or.inr (Or.inr (Or.inr
              (by simp [handler, hd', hc, hens, hg, hp]))))))
    · have hc' : hasPostgresEnv env = false := Bool.eq_false_iff.mpr hc
      exact Or.inr (Or.inl (by simp [handler, hd', hc']))

/-- C10: `ensureSchema()` runs before method dispatch for every
non-diagnostic request in a configured environment: if the schema
statement throws, the request yields the catch-block's HTTP 500 response
regardless of the method (so a DELETE gets 500, not 405); and on the
instrumented database the first statement any such request executes is the
schema creation. -/
theorem ensure_runs_before_dispatch :
    (∀ (σ : Type) (db : Db σ) (env : Env) (ctx : Ctx) (req : Request)
       (s : σ) (e : JsErr) (s1 : σ),
      isDiag req = false → hasPostgresEnv env = true →
      db.ensure s = (.error e, s1) →
      handler db env ctx req s = (errResp e, s1) ∧ (errResp e).status = 500) ∧
    (∀ (env : Env) (ctx : Ctx) (req : Request),
      isDiag req = false → hasPostgresEnv env = true →
      (handler traceDb env ctx req []).2.head? = some "ensure") := by
  constructor
  · intro σ db env ctx req s e s1 hd hc hens
    exact ⟨by simp [handler, hd, hc, hens], rfl⟩
  · intro env ctx req hd hc
    by_cases hg : (req.method == "GET") = true
    · simp [handler, hd, hc, traceDb, hg]
    · by_cases hp : (req.method == "POST") = true
      · by_cases hping : bodyPingTruthy (parseBody ctx.jsonParse req.body) = true
        · simp [handler, hd, hc, traceDb, hg, hp, hping]
        · simp [handler, hd, hc, traceDb, hg, hp, hping]
      · simp [handler, hd, hc, traceDb, hg, hp]

/-- Witness for C10: a DELETE request on a database whose schema statement
throws gets the 500 error response, and on the instrumented database the
first executed statement of a DELETE request is the schema creation. -/
theorem ensure_runs_before_dispatch_witness :
    (handler (failEnsureDb errBoom) envConfigured ctxFail reqDelete () =
        (errResp errBoom, ()) ∧ (errResp errBoom).status = 500) ∧
    (handler traceDb envConfigured ctxFail reqDelete []).2.head? = some "ensure" :=
  ⟨ensure_runs_before_dispatch.1 Unit (failEnsureDb errBoom) envConfigured ctxFail
      reqDelete () errBoom () (by rfl) (by rfl) rfl,
   ensure_runs_before_dispatch.2 envConfigured ctxFail reqDelete (by rfl) (by rfl)⟩
